import Mathlib

/-!
# Shallow embedding of the maslite multi-agent kernel

This file embeds the kernel of `src/maslite/__init__.py` (classes
`AgentMessage`, `Agent`, `Clock`, `Scheduler`) in Lean and proves, or
refutes, the behavioural claims of the specification against it.

Modelling conventions:
* Python identifiers/topic keys (ints and strings; agent uuids are ints,
  subscription topics are ints or strings) are the type `K`.
* Python `dict` is an insertion-ordered association list; Python `set`
  is a duplicate-free list in a fixed (insertion) order.  Iteration over
  a `set` has unspecified order in Python; the list order is this
  model's determinization of it.
* Times (`int`/`float` in the source) are rationals.
* The wall clock `time.time()` is an explicit parameter `realNow`.
* `deepcopy` of a message produces a *different* object; object identity
  of a delivered message is tracked by the `Obj` wrapper
  (`Obj.original m` is the very object that was enqueued,
  `Obj.copied m` is a fresh deep copy of it).
* Exceptions (`KeyError` from `self.agents[uuid]`, `ValueError`,
  `SchedulerException`) are `Except`/`Option` errors; an error return
  carries the state as it was when the exception was raised (the source
  raises before mutating in all modelled paths).
* The modelled message universe covers the message classes the claims
  exercise: plain `AgentMessage`, `SubscribeMessage`,
  `UnSubscribeMessage`, `AlarmMessage`, `PauseMessage`, `StopMessage`.
  Handlers of unmodelled classes (`AddNewAgent`, `RemoveAgent`,
  `SetTimeAndClockSpeedMessage`, `GetSubscribersMessage`,
  `GetSubscriptionTopicsMessage`) are unreachable for messages of this
  universe and are elided where noted.
* User agents (`Agent` subclasses) are modelled with passive hooks:
  `setup`/`teardown` do nothing, `update` increments an update counter.
  The kernel treats these hooks as opaque, so this choice only fixes the
  user side of the scenarios.
-/

namespace Maslite

/-- A Python identifier or topic key: an int or a string. -/
inductive K where
  | i : Int → K
  | s : String → K
deriving DecidableEq, Repr

/-- `Scheduler.__init__` passes `uuid=-1`. -/
def schedulerUuid : K := K.i (-1)

/-- `Clock.__init__` passes `uuid=-2`. -/
def clockUuid : K := K.i (-2)

/-- The fields every `AgentMessage` carries: `sender` (uuid or `None`),
`receiver` (uuid or `None` = broadcast), `topic`, and the permanent
message uuid drawn from the global `uuid_counter`. -/
structure MCore where
  sender : Option K
  receiver : Option K
  topic : K
  uuid : Nat
deriving DecidableEq, Repr

/-- The modelled universe of `AgentMessage` subclasses.
`sub c t` is a `SubscribeMessage` with `subscription_topic = t`;
`unsub c t` an `UnSubscribeMessage`; `alarmM c w m` an `AlarmMessage`
with `wake_up_time = w` and `wake_up_message = m`. -/
inductive MMsg where
  | plain : MCore → MMsg
  | sub : MCore → K → MMsg
  | unsub : MCore → Option K → MMsg
  | alarmM : MCore → ℚ → MMsg → MMsg
  | pauseM : MCore → MMsg
  | stopM : MCore → MMsg
deriving DecidableEq, Repr

/-- The base `AgentMessage` fields of any message. -/
def MMsg.core : MMsg → MCore
  | .plain c => c
  | .sub c _ => c
  | .unsub c _ => c
  | .alarmM c _ _ => c
  | .pauseM c => c
  | .stopM c => c

/-- A message object sitting in an inbox, with its identity:
either the very object that was enqueued into the mail queue, or a
deep copy of it produced by `AgentMessage.copy` at delivery time. -/
inductive Obj where
  | original : MMsg → Obj
  | copied : MMsg → Obj
deriving DecidableEq, Repr

/-- The message an inbox object denotes (ignoring identity). -/
def Obj.msg : Obj → MMsg
  | .original m => m
  | .copied m => m

/-! ### Association lists: the model of Python `dict` -/

/-- `d[k]` lookup, `None` if absent (`dict.get(k, None)`). -/
def alistLookup {β : Type} : List (K × β) → K → Option β
  | [], _ => none
  | (k', v) :: rest, k => if k' = k then some v else alistLookup rest k

/-- `d[k] = v`: overwrite in place, or append preserving insertion order. -/
def alistInsert {β : Type} : List (K × β) → K → β → List (K × β)
  | [], k, v => [(k, v)]
  | (k', v') :: rest, k, v =>
      if k' = k then (k, v) :: rest else (k', v') :: alistInsert rest k v

/-- `del d[k]` (no error if absent; the source guards its deletions). -/
def alistErase {β : Type} : List (K × β) → K → List (K × β)
  | [], _ => []
  | (k', v') :: rest, k =>
      if k' = k then rest else (k', v') :: alistErase rest k

/-- Add to a Python `set` modelled as a duplicate-free list. -/
def ndAdd (l : List K) (k : K) : List K := if k ∈ l then l else l ++ [k]

/-- `set.discard` / guarded `set.remove`. -/
def ndRemove (l : List K) (k : K) : List K := l.filter (fun x => x ≠ k)

/-- `s.update(t)` on Python sets (modelled as duplicate-free lists). -/
def listUnion (a b : List (Option K)) : List (Option K) :=
  a ++ b.filter (fun x => x ∉ a)

/-- Append to a `collections.deque(maxlen = n)`. -/
def dequeAppend {α : Type} (n : Nat) (l : List α) (x : α) : List α :=
  let l' := l ++ [x]
  l'.drop (l'.length - n)

/-! ### Mailing lists (`Scheduler.mailing_lists`)

A dict from subscription topic to the `set` of subscribers.  Members
are `msg.sender` values, hence `Option K` (a sender may be `None`);
keys are subscription topics, which `SubscribeMessage` asserts to be
int/float/str, hence `K`. -/

abbrev MailingLists := List (K × List (Option K))

/-- `Scheduler.process_subscribe_message` (src lines 1132-1155): create
the topic's set if missing, then add the sender if not present. -/
def process_subscribe_message (ml : MailingLists) (agentUuid : Option K)
    (subscriptionTopic : K) : MailingLists :=
  let ml1 :=
    match alistLookup ml subscriptionTopic with
    | none => alistInsert ml subscriptionTopic []
    | some _ => ml
  match alistLookup ml1 subscriptionTopic with
  | some members =>
      if agentUuid ∈ members then ml1
      else alistInsert ml1 subscriptionTopic (members ++ [agentUuid])
  | none => ml1   -- unreachable: the key was just created

/-- `Scheduler.unsubscribe_agent_everywhere` (src lines 1203-1211):
remove the sender from every mailing list (empty lists are kept).
The source asserts `msg.sender != self.uuid`; a sender equal to the
scheduler's uuid would raise `AssertionError` — that path is never
constructed here, and the assertion is modelled as a no-op branch. -/
def unsubscribe_agent_everywhere (ml : MailingLists) (sender : Option K) :
    MailingLists :=
  if sender = some schedulerUuid then ml
  else ml.map (fun kv => (kv.1, kv.2.filter (fun x => x ≠ sender)))

/-- `Scheduler.process_unsubscribe_message` (src lines 1157-1177). -/
def process_unsubscribe_message (ml : MailingLists) (sender : Option K)
    (subscriptionTopic : Option K) : MailingLists :=
  let ml1 :=
    match subscriptionTopic with
    | none => unsubscribe_agent_everywhere ml sender
    | some _ => ml
  match subscriptionTopic with
  | none => ml1   -- `None` is never a key of mailing_lists: log only
  | some t =>
      match alistLookup ml1 t with
      | none => ml1   -- "isn't subscribing to topic": log only
      | some members =>
          let members' := members.filter (fun x => x ≠ sender)
          if members'.length = 0 then alistErase ml1 t
          else alistInsert ml1 t members'

/-- The recipient-set computation of `Scheduler.process_mail_queue`
(src lines 1072-1078): start empty; union the subscribers stored under
the receiver key (a `None` receiver is never a dict key), then the
subscribers stored under the topic key. -/
def recipientsOf (ml : MailingLists) (receiver : Option K) (topic : K) :
    List (Option K) :=
  let fromReceiver : List (Option K) :=
    match receiver with
    | some r => (alistLookup ml r).getD []
    | none => []
  let fromTopic : List (Option K) := (alistLookup ml topic).getD []
  listUnion fromReceiver fromTopic

/-! ### Spec-side routing definition (for claim C2 only)

The specification describes a different routing engine: a directory
keyed by `(sender-filter, receiver-filter, topic-filter)` triples and a
`get_mail_recipients` that unions the receiver with the subscribers of
all eight sender/receiver/topic key combinations except the all-null
one.  This definition follows the spec's words and exists solely to be
compared with `recipientsOf`, which is translated from the source. -/

abbrev TriDir := List ((Option K × Option K × Option K) × List (Option K))

/-- Triple lookup in the spec's subscription directory. -/
def triLookup (d : TriDir) (tr : Option K × Option K × Option K) :
    List (Option K) :=
  match d.find? (fun kv => kv.1 = tr) with
  | some kv => kv.2
  | none => []

/-- The spec's `get_mail_recipients` routing algorithm for a non-direct
message: `{receiver}` when the receiver is non-null, unioned with the
subscribers of the eight `(sender-key, receiver-key, topic-key)`
combinations except the all-null triple. -/
def spec_get_mail_recipients (d : TriDir) (m : MCore) : List (Option K) :=
  let base : List (Option K) :=
    match m.receiver with
    | some r => [some r]
    | none => []
  let combos : List (Option K × Option K × Option K) :=
    [(m.sender, m.receiver, some m.topic),
     (m.sender, m.receiver, none),
     (m.sender, none, some m.topic),
     (m.sender, none, none),
     (none, m.receiver, some m.topic),
     (none, m.receiver, none),
     (none, none, some m.topic)]
  combos.foldl (fun acc tr => listUnion acc (triLookup d tr)) base

/-! ### The clock (`Clock`)

`Clock.set_alarm` stores `(msg.wake_up_time, msg.uuid, msg)` in the
list `self.alarms` and sorts it; `check_alarm_clock` pops due entries
from the front and sends each one's `wake_up_message`.  An entry here
keeps the two sort keys and the wake-up message the fire step sends. -/

structure AlarmEntry where
  time : ℚ
  uuid : Nat
  wakeMsg : MMsg
deriving DecidableEq, Repr

/-- The order `list.sort()` uses on the decorated tuples
`(wake_up_time, msg.uuid, msg)`: lexicographic on `(time, uuid)`.
Message uuids are globally unique, so the third component is never
compared by Python and is omitted from the key. -/
def alarmLE (a b : AlarmEntry) : Prop :=
  a.time < b.time ∨ (a.time = b.time ∧ a.uuid ≤ b.uuid)

instance : DecidableRel alarmLE := fun a b => by
  unfold alarmLE; infer_instance

instance : IsTotal AlarmEntry alarmLE where
  total a b := by
    unfold alarmLE
    rcases lt_trichotomy a.time b.time with h | h | h
    · exact Or.inl (Or.inl h)
    · rcases Nat.le_total a.uuid b.uuid with h' | h'
      · exact Or.inl (Or.inr ⟨h, h'⟩)
      · exact Or.inr (Or.inr ⟨h.symm, h'⟩)
    · exact Or.inr (Or.inl h)

instance : IsTrans AlarmEntry alarmLE where
  trans a b c hab hbc := by
    unfold alarmLE at *
    rcases hab with h1 | ⟨h1, h1'⟩ <;> rcases hbc with h2 | ⟨h2, h2'⟩
    · exact Or.inl (h1.trans h2)
    · exact Or.inl (h2 ▸ h1)
    · exact Or.inl (h1 ▸ h2)
    · exact Or.inr ⟨h1.trans h2, h1'.trans h2'⟩

/-- `Clock` state.  `t` is `self._time`; `clock_time` in the source is
written once in `__init__` and never read, so it is omitted.
`updateCount` is model instrumentation counting `update` invocations
(the Python object has no such field); no kernel behaviour reads it. -/
structure ClockState where
  inbox : List Obj
  outbox : List MMsg
  isSetup : Bool
  keepAwake : Bool
  quit : Bool
  paused : Bool
  timeWhenPaused : ℚ
  t : ℚ
  offset : ℚ
  clockSpeed : Option ℚ
  alarms : List AlarmEntry
  freqMeas : List ℚ
  lastTimestamp : ℚ
  updateCount : Nat
deriving DecidableEq, Repr

/-- The `Clock.time` property getter (src lines 521-534).  It also
writes `self._time`, so it returns the new clock state. -/
def clockTimeGet (realNow : ℚ) (c : ClockState) : ℚ × ClockState :=
  let rightNow :=
    match c.clockSpeed with
    | none => c.t
    | some sp =>
        if c.paused then max c.t c.timeWhenPaused
        else (realNow + c.offset) * sp
  (rightNow, { c with t := rightNow })

/-- The `Clock.time` property setter (src lines 536-551):
`offset = world_time - time.time(); _time = world_time`. -/
def clockTimeSet (realNow : ℚ) (c : ClockState) (worldTime : ℚ) : ClockState :=
  { c with offset := worldTime - realNow, t := worldTime }

/-- `Clock.clock_frequency` (src lines 635-648). -/
def clock_frequency (c : ClockState) : ℚ :=
  let cfm : ℚ :=
    if c.freqMeas.length = 0 then -1
    else c.freqMeas.sum / c.freqMeas.length
  let cfm := if cfm ≤ 0 then 1 / 1000000000 else cfm
  1 / cfm

/-- `Clock.tick` (src lines 578-588). -/
def clockTick (realNow : ℚ) (c : ClockState) : ClockState :=
  match c.clockSpeed with
  | none => c
  | some _ =>
      let (rightNow, c1) := clockTimeGet realNow c
      let c2 := { c1 with lastTimestamp := rightNow }
      let dt := |max c2.lastTimestamp c2.t - rightNow|
      { c2 with freqMeas := dequeAppend 5 c2.freqMeas dt }

/-- `Clock.set_alarm` (src lines 603-610): append the decorated entry
and sort.  Python's `list.sort()` is a stable sort; with globally
unique message uuids the `(time, uuid)` keys of distinct entries are
distinct, so any sort agreeing with `alarmLE` yields the same list;
insertion sort is used because it is structurally recursive. -/
def set_alarm (c : ClockState) (m : MMsg) : ClockState :=
  match m with
  | .alarmM core wakeUpTime wakeMsg =>
      let sorted :=
        List.insertionSort alarmLE (c.alarms ++ [⟨wakeUpTime, core.uuid, wakeMsg⟩])
      { c with alarms := sorted }
  | _ => c  -- source: `assert isinstance(msg, AlarmMessage)` would raise;
            -- never reached for messages dispatched on topic "AlarmMessage"
            -- built by `mkAlarmMessage`

/-- The while-loop of `Clock.check_alarm_clock` (src lines 626-633):
pop due alarms from the front, sending each `wake_up_message` via
`self.send` (which appends to the clock's outbox). -/
def cacLoop (rightNow : ℚ) (outbox : List MMsg) :
    List AlarmEntry → List MMsg × List AlarmEntry
  | [] => (outbox, [])
  | e :: rest =>
      if e.time ≤ rightNow then cacLoop rightNow (outbox ++ [e.wakeMsg]) rest
      else (outbox, e :: rest)

/-- `Clock.check_alarm_clock` (src lines 612-633). -/
def check_alarm_clock (realNow : ℚ) (c : ClockState) : ClockState :=
  if c.alarms.isEmpty then c
  else
    let (rightNow, c1) :=
      match c.clockSpeed with
      | none => clockTimeGet realNow c
      | some _ =>
          let (t0, c') := clockTimeGet realNow c
          (t0 + 1 / clock_frequency c', c')
    let (ob, al) := cacLoop rightNow c1.outbox c1.alarms
    { c1 with outbox := ob, alarms := al }

/-- `Clock._resume_after_pause` (src lines 674-678). -/
def resume_after_pause (realNow : ℚ) (c : ClockState) : ClockState :=
  clockTimeSet realNow { c with paused := false } (max c.t c.timeWhenPaused)

/-- `Clock.pause` (src lines 669-672); `self.time` is the getter. -/
def clockPause (realNow : ℚ) (c : ClockState) : ClockState :=
  let c1 := { c with paused := true }
  let (t0, c2) := clockTimeGet realNow c1
  { c2 with timeWhenPaused := t0 }

/-- `Clock.is_waiting_for_the_alarm_clock` (src lines 680-687). -/
def is_waiting_for_the_alarm_clock (c : ClockState) : Bool :=
  !c.alarms.isEmpty && c.inbox.isEmpty

/-- `Clock.is_idle` (src lines 689-697). -/
def clock_is_idle (c : ClockState) : Bool :=
  c.alarms.isEmpty && c.inbox.isEmpty

/-! ### Message constructors and the global uuid counter

`uuid_counter = count(1)` is process-global; the model threads the next
value explicitly.  Each constructor mirrors the `__init__` of the
corresponding message class. -/

/-- `AgentMessage.__init__`: draws the next message uuid. -/
def mkCore (sender receiver : Option K) (topic : K) (ctr : Nat) :
    MCore × Nat :=
  ({ sender := sender, receiver := receiver, topic := topic, uuid := ctr },
   ctr + 1)

/-- `SubscribeMessage(sender, subscription_topic)`: topic is the class
name `"SubscribeMessage"`, receiver `None`. -/
def mkSubscribeMessage (sender : Option K) (subscriptionTopic : K)
    (ctr : Nat) : MMsg × Nat :=
  let (c, ctr') := mkCore sender none (K.s "SubscribeMessage") ctr
  (MMsg.sub c subscriptionTopic, ctr')

/-- `UnSubscribeMessage(sender, subscription_topic=None)`. -/
def mkUnSubscribeMessage (sender : Option K) (subscriptionTopic : Option K)
    (ctr : Nat) : MMsg × Nat :=
  let (c, ctr') := mkCore sender none (K.s "UnSubscribeMessage") ctr
  (MMsg.unsub c subscriptionTopic, ctr')

/-- `PauseMessage(sender, receiver)`. -/
def mkPauseMessage (sender receiver : Option K) (ctr : Nat) : MMsg × Nat :=
  let (c, ctr') := mkCore sender receiver (K.s "PauseMessage") ctr
  (MMsg.pauseM c, ctr')

/-- `AlarmMessage(sender, receiver="Clock", alarm_time, alarm_message)`
(src lines 700-718): a `None` receiver of the wake-up message is
replaced by the sender; a missing wake-up message defaults to a fresh
plain `AgentMessage(sender, receiver=sender)` (drawing a uuid). -/
def mkAlarmMessage (sender : Option K) (receiver : Option K)
    (alarmTime : ℚ) (alarmMessage : Option MMsg) (ctr : Nat) : MMsg × Nat :=
  let (c, ctr1) := mkCore sender receiver (K.s "AlarmMessage") ctr
  match alarmMessage with
  | some w =>
      let w' :=
        match w with
        | .plain wc =>
            if wc.receiver = none then MMsg.plain { wc with receiver := sender } else w
        | .sub wc t =>
            if wc.receiver = none then MMsg.sub { wc with receiver := sender } t else w
        | .unsub wc t =>
            if wc.receiver = none then MMsg.unsub { wc with receiver := sender } t else w
        | .alarmM wc wt wm =>
            if wc.receiver = none then MMsg.alarmM { wc with receiver := sender } wt wm else w
        | .pauseM wc =>
            if wc.receiver = none then MMsg.pauseM { wc with receiver := sender } else w
        | .stopM wc =>
            if wc.receiver = none then MMsg.stopM { wc with receiver := sender } else w
      (MMsg.alarmM c alarmTime w', ctr1)
  | none =>
      let (wc, ctr2) := mkCore sender sender (K.s "AgentMessage") ctr1
      (MMsg.alarmM c alarmTime (MMsg.plain wc), ctr2)

/-! ### Agents and the scheduler state -/

/-- A user-written `Agent` subclass instance, with passive hooks
(`setup`/`teardown` do nothing, `update` counts its invocations). -/
structure UserAgent where
  uuid : K
  className : String
  inbox : List Obj
  outbox : List MMsg
  time : ℚ
  isSetup : Bool
  keepAwake : Bool
  quit : Bool
  updateCount : Nat
deriving DecidableEq, Repr

/-- An entry of `Scheduler.agents`.  `clockRef` is the scheduler's own
clock object (the registry aliases `self.clock`; its state lives in
`SState.clock`). -/
inductive AgentRec where
  | clockRef : AgentRec
  | user : UserAgent → AgentRec
deriving DecidableEq, Repr

/-- `Scheduler` state (`__init__`, src lines 728-780), including the
fields it inherits from `Agent` (its own inbox/outbox, `_time`,
`_is_setup`, `_quit`) and the threaded global message uuid counter. -/
structure SState where
  inbox : List Obj
  outbox : List MMsg
  mailQueue : List MMsg
  mailingLists : MailingLists
  agents : List (K × AgentRec)
  needsUpdate : List K
  hasKeepAwake : List K
  clock : ClockState
  iterationsToHalt : Option Int
  messageCount : List Nat
  pause : Bool
  pauseIfIdle : Bool
  isSetup : Bool
  quit : Bool
  time : ℚ
  uuidCtr : Nat
deriving DecidableEq, Repr

/-- Registry lookup by a possibly-`None` uuid (`self.agents[uuid]` with
a `None` key can only miss, since registry keys are agent uuids). -/
def agentsGet (ags : List (K × AgentRec)) (u : Option K) : Option AgentRec :=
  match u with
  | none => none
  | some k => alistLookup ags k

/-! ### Delivery (`Scheduler.send_to_recipients`, src lines 1089-1104) -/

/-- One iteration of the delivery loop for recipient `u`: resolve the
agent (`self` when `u` equals the scheduler's uuid, otherwise
`self.agents[uuid]`, a `KeyError` when absent — including for a `None`
uuid), add non-self recipients to `needs_update`, and append `obj` to
the resolved agent's inbox. -/
def deliverTo (st : SState) (u : Option K) (obj : Obj) : Except String SState :=
  if u = some schedulerUuid then
    Except.ok { st with inbox := st.inbox ++ [obj] }
  else
    match u, agentsGet st.agents u with
    | _, none =>
        Except.error "KeyError: self.agents[uuid]"
    | some k, some AgentRec.clockRef =>
        let st1 := { st with needsUpdate := ndAdd st.needsUpdate k }
        Except.ok { st1 with clock := { st1.clock with inbox := st1.clock.inbox ++ [obj] } }
    | some k, some (AgentRec.user a) =>
        let st1 := { st with needsUpdate := ndAdd st.needsUpdate k }
        let a' := { a with inbox := a.inbox ++ [obj] }
        Except.ok { st1 with agents := alistInsert st1.agents k (AgentRec.user a') }
    | none, some _ => Except.error "KeyError: self.agents[uuid]"  -- unreachable

/-- The delivery loop: `n` is `len(recipients)`, fixed before the loop;
a single recipient receives the message object itself, while with
several recipients **every** recipient receives `msg.copy()`. -/
def sendToRecipientsGo (msg : MMsg) (n : Nat) :
    SState → List (Option K) → Except String SState
  | st, [] => Except.ok st
  | st, u :: rest =>
      let obj := if n = 1 then Obj.original msg else Obj.copied msg
      match deliverTo st u obj with
      | Except.error e => Except.error e
      | Except.ok st' => sendToRecipientsGo msg n st' rest

/-- `Scheduler.send_to_recipients` (src lines 1089-1104). -/
def send_to_recipients (st : SState) (msg : MMsg)
    (recipients : List (Option K)) : Except String SState :=
  sendToRecipientsGo msg recipients.length st recipients

/-! ### `Scheduler.process_mail_queue` (src lines 1061-1087)

The queue holds only `AgentMessage`s in this typed model; the source's
warning-and-drop branch for non-`AgentMessage` junk is unrepresentable
here and is not part of any claim settled against this function. -/

/-- The while-loop: pop, resolve recipients, deliver when non-empty
(otherwise log and drop), counting processed messages. -/
def pmqGo : SState → Nat → List MMsg → Except String (SState × Nat)
  | st, cnt, [] => Except.ok (st, cnt)
  | st, cnt, m :: rest =>
      let recips := recipientsOf st.mailingLists m.core.receiver m.core.topic
      if recips.length > 0 then
        match send_to_recipients st m recips with
        | Except.error e => Except.error e
        | Except.ok st' => pmqGo st' (cnt + 1) rest
      else
        pmqGo st (cnt + 1) rest   -- "... is not registered on a mailing list"

/-- `Scheduler.process_mail_queue`: the cycle count starts at
`len(self.has_keep_awake)` and is appended to the `maxlen=3` deque
`self.message_count`. -/
def process_mail_queue (st : SState) : Except String SState :=
  match pmqGo { st with mailQueue := [] } st.hasKeepAwake.length st.mailQueue with
  | Except.error e => Except.error e
  | Except.ok (st', cnt) =>
      Except.ok { st' with messageCount := dequeAppend 3 st'.messageCount cnt }

/-! ### `Agent.send` (src lines 268-276) -/

/-- The argument of `Agent.send`: either an `AgentMessage` or any other
object (which the `assert isinstance(msg, AgentMessage)` rejects). -/
inductive Sendable where
  | agentMsg : MMsg → Sendable
  | nonAgentMessage : Sendable
deriving DecidableEq, Repr

/-- `Agent.send`: assert the argument is an `AgentMessage`, then append
it to the agent's **own** outbox.  No scheduler state is consulted or
touched; registration plays no role. -/
def agentSend (a : UserAgent) (m : Sendable) : Option String × UserAgent :=
  match m with
  | Sendable.agentMsg msg => (none, { a with outbox := a.outbox ++ [msg] })
  | Sendable.nonAgentMessage =>
      (some "AssertionError: sending messages that aren't based on AgentMessage's wont work", a)

/-! ### `Scheduler.remove` (src lines 802-829) -/

/-- How `remove` is called: with an `Agent` object (by reference:
`theClock` is the scheduler's own clock object, `userObj` some user
agent object) or with a bare identifier. -/
inductive AgentRef where
  | theClock : AgentRef
  | userObj : UserAgent → AgentRef
deriving DecidableEq, Repr

inductive RemoveArg where
  | byAgent : AgentRef → RemoveArg
  | byId : K → RemoveArg
deriving DecidableEq, Repr

/-- The `ValueError`s `Scheduler.remove` can raise. -/
inductive RemErr where
  | agentNotFound : K → RemErr    -- "Agent not found: {}"
  | clockNotPermitted : RemErr    -- "Removing the clock is not permitted."
deriving DecidableEq, Repr

/-- The deregistration tail of `remove` (src lines 819-829) for a user
agent object `a` whose uuid is a registry key: if the agent is set up,
clear the scheduler's own `_is_setup`, call the agent's `teardown`
(passive: no-op), flush its outbox into the mail queue
(`send_and_receive`), and unsubscribe it everywhere (constructing an
`UnSubscribeMessage` draws a message uuid); then discard the uuid from
the tracking sets and delete the registry entry. -/
def removeDeregister (st : SState) (a : UserAgent) : SState :=
  let st1 :=
    if a.isSetup then
      let st' := { st with isSetup := false }
      let st' := { st' with mailQueue := st'.mailQueue ++ a.outbox }
      { st' with
          mailingLists := unsubscribe_agent_everywhere st'.mailingLists (some a.uuid),
          uuidCtr := st'.uuidCtr + 1 }
    else st
  { st1 with
      needsUpdate := ndRemove st1.needsUpdate a.uuid,
      hasKeepAwake := ndRemove st1.hasKeepAwake a.uuid,
      agents := alistErase st1.agents a.uuid }

/-- `Scheduler.remove`: resolve an identifier through the registry
(`ValueError` when unknown), refuse to remove the clock (`ValueError`),
return silently (log only) for an agent object that is not registered,
and otherwise deregister.  Every error is raised before any mutation,
so the state is returned unchanged alongside it. -/
def removeAgent (st : SState) (arg : RemoveArg) : Option RemErr × SState :=
  match arg with
  | RemoveArg.byId k =>
      match alistLookup st.agents k with
      | none => (some (RemErr.agentNotFound k), st)
      | some AgentRec.clockRef => (some RemErr.clockNotPermitted, st)
      | some (AgentRec.user a) => (none, removeDeregister st a)
  | RemoveArg.byAgent AgentRef.theClock => (some RemErr.clockNotPermitted, st)
  | RemoveArg.byAgent (AgentRef.userObj a) =>
      match alistLookup st.agents a.uuid with
      | none => (none, st)   -- "Agent exists but hasn't been added": log, return
      | some _ => (none, removeDeregister st a)

/-! ### The scheduler main loop (`Scheduler.run`/`update`, src 917-1059)

The update trace (`List K`) records, in order, the uuid of every
registered agent whose `update` method is invoked (via `Agent.run`,
which calls `update` unless the agent's `_quit` flag is set). -/

/-- `Scheduler.send_and_receive(agent)` (src lines 1027-1033) for the
clock: drain the clock's outbox into the mail queue. -/
def sendAndReceiveClock (st : SState) : SState :=
  { st with
      mailQueue := st.mailQueue ++ st.clock.outbox,
      clock := { st.clock with outbox := [] } }

/-- `send_and_receive(self)`: drain the scheduler's own outbox. -/
def sendAndReceiveSelf (st : SState) : SState :=
  { st with mailQueue := st.mailQueue ++ st.outbox, outbox := [] }

/-- `Clock.setup` (src lines 490-492): mark set up and
`subscribe("SetTimeAndClockSpeedMessage")`, which sends a
`SubscribeMessage` into the clock's own outbox. -/
def clock_setup (c : ClockState) (ctr : Nat) : ClockState × Nat :=
  let (m, ctr') :=
    mkSubscribeMessage (some clockUuid) (K.s "SetTimeAndClockSpeedMessage") ctr
  ({ c with isSetup := true, outbox := c.outbox ++ [m] }, ctr')

/-- The message-dispatch of `Clock.update` (src lines 502-506): the
clock's `operations` map `SetTimeAndClockSpeedMessage` and
`AlarmMessage` topics to handlers; other topics are dropped.  The
`SetTimeAndClockSpeedMessage` class is outside the modelled message
universe, so only the `AlarmMessage` handler is reachable. -/
def clockDispatch (c : ClockState) (m : MMsg) : ClockState :=
  if m.core.topic = K.s "AlarmMessage" then set_alarm c m else c

/-- `Clock.update` (src lines 498-507): resume if paused, tick, drain
the inbox through the dispatch table, then check the alarm clock. -/
def clock_update (realNow : ℚ) (c : ClockState) : ClockState :=
  let c1 := if c.paused then resume_after_pause realNow c else c
  let c2 := clockTick realNow c1
  let c3 := c2.inbox.foldl (fun acc o => clockDispatch acc o.msg)
            { c2 with inbox := [], updateCount := c2.updateCount + 1 }
  check_alarm_clock realNow c3

/-- `Agent.run` for the clock: invoke `update` unless `_quit`. -/
def clockRun (realNow : ℚ) (c : ClockState) : ClockState :=
  if c.quit then c else clock_update realNow c

/-- The passive user agent's `update` hook: count the invocation. -/
def userUpdate (a : UserAgent) : UserAgent :=
  { a with updateCount := a.updateCount + 1 }

/-- `Agent.run` for a passive user agent. -/
def userRun (a : UserAgent) : UserAgent :=
  if a.quit then a else userUpdate a

/-- `Scheduler.maintain_keep_awake_list` (src lines 1017-1025). -/
def maintain_keep_awake_list (st : SState) (a : UserAgent) : SState :=
  if a.keepAwake then { st with hasKeepAwake := ndAdd st.hasKeepAwake a.uuid }
  else { st with hasKeepAwake := ndRemove st.hasKeepAwake a.uuid }

/-- `Scheduler.update_agent` (src lines 1011-1015) for the clock:
the `agent is self.clock` guard skips the time write; `agent.run()`
then `send_and_receive(agent)`.  Returns the state and the update
trace of this call. -/
def updateAgentClock (realNow : ℚ) (st : SState) : SState × List K :=
  let tr := if st.clock.quit then [] else [clockUuid]
  let st1 := { st with clock := clockRun realNow st.clock }
  (sendAndReceiveClock st1, tr)

/-- `update_agent` for a registered user agent (registry key `k`):
`agent.time = self.clock.time` (the getter also writes the clock's
`_time`), `agent.run()`, `send_and_receive(agent)`. -/
def updateAgentUser (realNow : ℚ) (st : SState) (k : K) (a : UserAgent) :
    SState × List K :=
  let (t0, ck) := clockTimeGet realNow st.clock
  let a1 := userRun { a with time := t0 }
  let tr := if a.quit then [] else [k]
  let st1 := { st with
      clock := ck,
      agents := alistInsert st.agents k (AgentRec.user { a1 with outbox := [] }),
      mailQueue := st.mailQueue ++ a1.outbox }
  (st1, tr)

/-- The body of `update_all_agents`' loop over `needs_update` (src
lines 1005-1008): look up the agent (`KeyError` if the registry lost
it), update it, and maintain the keep-awake list. -/
def uaaLoop (realNow : ℚ) : SState → List K → Except String (SState × List K)
  | st, [] => Except.ok (st, [])
  | st, k :: rest =>
      match alistLookup st.agents k with
      | none => Except.error "KeyError: self.agents[uuid]"
      | some AgentRec.clockRef =>
          let (st1, tr) := updateAgentClock realNow st
          match uaaLoop realNow st1 rest with
          | Except.error e => Except.error e
          | Except.ok (st2, tr2) => Except.ok (st2, tr ++ tr2)
      | some (AgentRec.user a) =>
          let (st1, tr) := updateAgentUser realNow st k a
          let st2 :=
            match alistLookup st1.agents k with
            | some (AgentRec.user a') => maintain_keep_awake_list st1 a'
            | _ => st1
          match uaaLoop realNow st2 rest with
          | Except.error e => Except.error e
          | Except.ok (st3, tr2) => Except.ok (st3, tr ++ tr2)

/-- `Scheduler.update_all_agents` (src lines 998-1009): fold the
keep-awake set into `needs_update`, update the clock first, then every
agent in `needs_update` (the clock may appear there too and is then
updated again), and clear `needs_update`. -/
def update_all_agents (realNow : ℚ) (st : SState) :
    Except String (SState × List K) :=
  let st0 := { st with needsUpdate := st.hasKeepAwake.foldl ndAdd st.needsUpdate }
  let (st1, tr1) := updateAgentClock realNow st0
  match uaaLoop realNow st1 st1.needsUpdate with
  | Except.error e => Except.error e
  | Except.ok (st2, tr2) =>
      Except.ok ({ st2 with needsUpdate := [] }, tr1 ++ tr2)

/-- The scheduler's `operations` dispatch inside `scheduler_update`
(src lines 1049-1057 with the handlers at 760-768).  Every inbox entry
is an `AgentMessage` in this typed model, so the
`SchedulerException` branch for junk is unreachable.  Handlers of
message classes outside the modelled universe (`AddNewAgent`,
`RemoveAgent`, `GetSubscribersMessage`, `GetSubscriptionTopicsMessage`)
begin with `assert isinstance(...)` and are unreachable for messages of
this universe; a message of another class whose topic collides with
those names is dropped here (the source would raise
`AssertionError`). -/
def schedDispatch (st : SState) (m : MMsg) : SState :=
  if m.core.topic = K.s "PauseMessage" then
    match m with
    | MMsg.pauseM _ => { st with pause := true }
    | _ => st
  else if m.core.topic = K.s "StopMessage" then
    { st with quit := true }   -- `stop` has no isinstance assert
  else if m.core.topic = K.s "SubscribeMessage" then
    match m with
    | MMsg.sub c t =>
        { st with mailingLists := process_subscribe_message st.mailingLists c.sender t }
    | _ => st
  else if m.core.topic = K.s "UnSubscribeMessage" then
    match m with
    | MMsg.unsub c t =>
        { st with mailingLists := process_unsubscribe_message st.mailingLists c.sender t }
    | _ => st
  else st

/-- `Scheduler.scheduler_update` (src lines 1045-1059): refresh
`self._time` from the clock, drain the scheduler's own inbox through
the dispatch table, then `send_and_receive(self)`. -/
def scheduler_update (realNow : ℚ) (st : SState) : SState :=
  let (t0, ck) := clockTimeGet realNow st.clock
  let st1 := { st with time := t0, clock := ck }
  let st2 := st1.inbox.foldl (fun acc o => schedDispatch acc o.msg)
             { st1 with inbox := [] }
  sendAndReceiveSelf st2

/-- `Scheduler.update_iterations_to_halt` (src lines 1035-1043). -/
def update_iterations_to_halt (st : SState) : SState :=
  match st.iterationsToHalt with
  | none => st
  | some n =>
      if n > 0 then { st with iterationsToHalt := some (n - 1) }
      else { st with pause := true }

/-- `Clock.advance_time_to_next_timed_event` (src lines 654-667): jump
to the first pending alarm, or — with no alarms and the flag set —
send a `PauseMessage` to `"Scheduler"` (constructing it draws a
message uuid). -/
def advance_time_to_next_timed_event (realNow : ℚ) (issueStop : Bool)
    (c : ClockState) (ctr : Nat) : ClockState × Nat :=
  match c.alarms with
  | e :: _ => (clockTimeSet realNow c e.time, ctr)
  | [] =>
      if issueStop then
        let (m, ctr') := mkPauseMessage (some clockUuid) (some (K.s "Scheduler")) ctr
        ({ c with outbox := c.outbox ++ [m] }, ctr')
      else (c, ctr)

/-- `Scheduler.advance_clock_if_agents_are_idle` (src lines 1122-1130). -/
def advance_clock_if_agents_are_idle (realNow : ℚ) (st : SState) : SState :=
  if st.messageCount.sum = 0 && is_waiting_for_the_alarm_clock st.clock
      && st.clock.clockSpeed.isNone then
    let (ck, ctr) :=
      advance_time_to_next_timed_event realNow st.pauseIfIdle st.clock st.uuidCtr
    { st with clock := ck, uuidCtr := ctr }
  else st

/-- `Scheduler.check_pause_if_idle_flag` (src lines 1114-1120). -/
def check_pause_if_idle_flag (st : SState) : SState :=
  if st.messageCount.sum = 0 && clock_is_idle st.clock && st.pauseIfIdle then
    { st with pause := true }
  else st

/-- The `while not self._quit` loop of `Scheduler.update` (src lines
979-996), with explicit fuel cutting off the unbounded loop (every
theorem below leaves the loop through `pause` before fuel runs out).
`micro_sleep_if_idle` only sleeps the host thread and has no modelled
state effect. -/
def scheduler_update_loop (realNow : ℚ) :
    Nat → SState → Except String (SState × List K)
  | 0, st => Except.ok (st, [])
  | fuel + 1, st =>
      if st.quit then Except.ok (st, [])
      else
        let st1 := update_iterations_to_halt st
        if st1.pause then Except.ok (st1, [])
        else
          match update_all_agents realNow st1 with
          | Except.error e => Except.error e
          | Except.ok (st2, tr) =>
              let st3 := scheduler_update realNow st2
              match process_mail_queue st3 with
              | Except.error e => Except.error e
              | Except.ok st4 =>
                  let st5 := advance_clock_if_agents_are_idle realNow st4
                  let st6 := check_pause_if_idle_flag st5
                  match scheduler_update_loop realNow fuel st6 with
                  | Except.error e => Except.error e
                  | Except.ok (st7, tr2) => Except.ok (st7, tr ++ tr2)

/-- The argument of `Scheduler.add`: the scheduler's own clock object
(added during `setup`) or a user agent object. -/
inductive AddArg where
  | theClock : AddArg
  | user : UserAgent → AddArg
deriving DecidableEq, Repr

/-- `Scheduler.add` (src lines 782-800): `SchedulerException` on a
duplicate uuid; register; for an agent that is not yet set up,
subscribe it to its own uuid and to its class name (direct
`process_subscribe_message` calls, each constructing a
`SubscribeMessage` and drawing a message uuid), run its `setup` hook
and mark it set up; finally maintain the tracking sets. -/
def scheduler_add (st : SState) (arg : AddArg) : Except String SState :=
  let u := match arg with | AddArg.theClock => clockUuid | AddArg.user a => a.uuid
  let cname := match arg with | AddArg.theClock => "Clock" | AddArg.user a => a.className
  let setupDone := match arg with | AddArg.theClock => st.clock.isSetup | AddArg.user a => a.isSetup
  let keepAwake := match arg with | AddArg.theClock => st.clock.keepAwake | AddArg.user a => a.keepAwake
  if (alistLookup st.agents u).isSome then
    Except.error "SchedulerException: Agent uuid already in usage."
  else
    let rec0 := match arg with | AddArg.theClock => AgentRec.clockRef | AddArg.user a => AgentRec.user a
    let st1 := { st with agents := alistInsert st.agents u rec0 }
    let st2 :=
      if setupDone then st1
      else
        let st' := { st1 with
            mailingLists := process_subscribe_message st1.mailingLists (some u) u,
            uuidCtr := st1.uuidCtr + 1 }
        let st' := { st' with
            mailingLists := process_subscribe_message st'.mailingLists (some u) (K.s cname),
            uuidCtr := st'.uuidCtr + 1 }
        match arg with
        | AddArg.theClock =>
            let (ck, ctr) := clock_setup st'.clock st'.uuidCtr
            { st' with clock := ck, uuidCtr := ctr }
        | AddArg.user a =>
            -- passive setup hook: no-op; then `agent._is_setup = True`
            let a' := { a with isSetup := true }
            { st' with agents := alistInsert st'.agents u (AgentRec.user a') }
    let st3 := if keepAwake then { st2 with hasKeepAwake := ndAdd st2.hasKeepAwake u } else st2
    Except.ok { st3 with needsUpdate := ndAdd st3.needsUpdate u }

/-- The topics the scheduler subscribes itself to during `setup`: its
uuid, its class name, and every key of its `operations` dict (in the
dict's insertion order, src lines 760-768). -/
def schedulerSetupTopics : List K :=
  [schedulerUuid, K.s "Scheduler",
   K.s "PauseMessage", K.s "StopMessage", K.s "AddNewAgent", K.s "RemoveAgent",
   K.s "SubscribeMessage", K.s "UnSubscribeMessage",
   K.s "GetSubscriptionTopicsMessage", K.s "GetSubscribersMessage"]

/-- One self-subscription of the scheduler during `setup`: construct a
`SubscribeMessage(sender=self, subscription_topic=t)` (drawing a
message uuid) and process it directly. -/
def schedSelfSubscribe (st : SState) (t : K) : SState :=
  { st with
      mailingLists := process_subscribe_message st.mailingLists (some schedulerUuid) t,
      uuidCtr := st.uuidCtr + 1 }

/-- `Scheduler.setup` (src lines 831-846): subscribe itself to its
uuid, class name and operations topics, `send_and_receive(self)`, add
the clock, update all agents once, and process the mail queue. -/
def scheduler_setup (realNow : ℚ) (st : SState) :
    Except String (SState × List K) :=
  if st.isSetup then Except.ok (st, [])
  else
    let st1 := { st with isSetup := true }
    let st2 := schedulerSetupTopics.foldl schedSelfSubscribe st1
    let st3 := sendAndReceiveSelf st2
    match scheduler_add st3 AddArg.theClock with
    | Except.error e => Except.error e
    | Except.ok st4 =>
        match update_all_agents realNow st4 with
        | Except.error e => Except.error e
        | Except.ok (st5, tr) =>
            match process_mail_queue st5 with
            | Except.error e => Except.error e
            | Except.ok st6 => Except.ok (st6, tr)

/-- The `updated_agents` collection at the top of `run` (src lines
960-962): every registered agent with a non-empty inbox or outbox is
added to `needs_update`. -/
def addUpdatedAgents (st : SState) : SState :=
  let upd := st.agents.foldl
    (fun acc kv =>
      match kv.2 with
      | AgentRec.clockRef =>
          if !st.clock.inbox.isEmpty || !st.clock.outbox.isEmpty then ndAdd acc kv.1 else acc
      | AgentRec.user a =>
          if !a.inbox.isEmpty || !a.outbox.isEmpty then ndAdd acc kv.1 else acc)
    st.needsUpdate
  { st with needsUpdate := upd }

/-- The argument-processing prologue of `Scheduler.run` (src lines
940-962), restricted to the `iterations` and `pause_if_idle` keyword
arguments (`seconds` and `clock_speed` keep their `''` defaults: both
are real-time features no claim here exercises).  `iterations=''`
resets `iterations_to_halt` to `None`; an integer is stored as its
absolute value; `self.pause` is reset; agents with pending messages
are folded into `needs_update`. -/
def runPre (iterations : Option Int) (pauseIfIdleArg : Option Bool)
    (st : SState) : SState :=
  let st1 := { st with iterationsToHalt := iterations.map (fun i => |i|) }
  let st2 := match pauseIfIdleArg with
             | some b => { st1 with pauseIfIdle := b }
             | none => st1
  let st3 := if st2.pause then { st2 with pause := false } else st2
  addUpdatedAgents st3

/-- `Scheduler.run` (src lines 917-967): prologue, `setup` when not
yet set up, then `super().run()` (the update loop unless `_quit`),
finally pausing the clock when the loop left `pause` set.  Returns the
final state and the update trace. -/
def scheduler_run (realNow : ℚ) (fuel : Nat) (iterations : Option Int)
    (pauseIfIdleArg : Option Bool) (st : SState) :
    Except String (SState × List K) :=
  let st4 := runPre iterations pauseIfIdleArg st
  match (if st4.isSetup then Except.ok (st4, []) else scheduler_setup realNow st4) with
  | Except.error e => Except.error e
  | Except.ok (st5, tr1) =>
      -- `super().run()`: `if not self._quit: self.update()`
      match (if st5.quit then Except.ok (st5, [])
             else scheduler_update_loop realNow fuel st5) with
      | Except.error e => Except.error e
      | Except.ok (st6, tr2) =>
          let st7 := if st6.pause then { st6 with clock := clockPause realNow st6.clock } else st6
          Except.ok (st7, tr1 ++ tr2)

/-! ### Initial states (`Clock.__init__`, `Scheduler.__init__`) -/

/-- `Clock(world_time=0, clock_speed=None)` as constructed by
`Scheduler.__init__` (the scheduler's default `clock_speed` is
`None`): paused, `self.time = 0` runs the time setter (whose `offset`
uses the wall clock at construction time). -/
def initialClock (realNow : ℚ) : ClockState :=
  { inbox := [], outbox := [], isSetup := false, keepAwake := false,
    quit := false, paused := true, timeWhenPaused := 0, t := 0,
    offset := 0 - realNow, clockSpeed := none, alarms := [], freqMeas := [],
    lastTimestamp := 0, updateCount := 0 }

/-- `Scheduler()` with its defaults (`clock_speed=None`,
`pause_if_idle=True`); the global message uuid counter starts at 1. -/
def initialScheduler (realNow : ℚ) : SState :=
  { inbox := [], outbox := [], mailQueue := [], mailingLists := [],
    agents := [], needsUpdate := [], hasKeepAwake := [],
    clock := initialClock realNow, iterationsToHalt := none,
    messageCount := [], pause := false, pauseIfIdle := true,
    isSetup := false, quit := false, time := 0, uuidCtr := 1 }

/-- The inbox of the agent a recipient uuid resolves to, `none` when
the uuid resolves to no registered agent (the scheduler's own uuid
resolves to the scheduler itself, as in `send_to_recipients`). -/
def inboxOfR (st : SState) (u : Option K) : Option (List Obj) :=
  if u = some schedulerUuid then some st.inbox
  else
    match agentsGet st.agents u with
    | some AgentRec.clockRef => some st.clock.inbox
    | some (AgentRec.user a) => some a.inbox
    | none => none

/-! ### Concrete example states used by counterexamples and witnesses -/

/-- A set-up registered user agent with uuid 7. -/
def c1agentA : UserAgent :=
  { uuid := K.i 7, className := "TestAgent", inbox := [], outbox := [],
    time := 0, isSetup := true, keepAwake := false, quit := false, updateCount := 0 }

/-- A set-up registered user agent with uuid 8. -/
def c1agentB : UserAgent :=
  { uuid := K.i 8, className := "TestAgent", inbox := [], outbox := [],
    time := 0, isSetup := true, keepAwake := false, quit := false, updateCount := 0 }

/-- A scheduler with the two user agents 7 and 8 registered. -/
def c1state : SState :=
  { initialScheduler 0 with
      agents := [(K.i 7, AgentRec.user c1agentA), (K.i 8, AgentRec.user c1agentB)] }

/-- A broadcast message whose resolved recipients will be 7 and 8. -/
def c1msg : MMsg :=
  MMsg.plain { sender := some (K.i 9), receiver := none, topic := K.s "news", uuid := 50 }

/-- The message fields of a mail-queue message with receiver 5. -/
def c2core : MCore :=
  { sender := some (K.i 9), receiver := some (K.i 5), topic := K.s "t", uuid := 40 }

/-- An agent object that was never added to any scheduler. -/
def c3agent : UserAgent :=
  { uuid := K.i 6, className := "TestAgent", inbox := [], outbox := [],
    time := 0, isSetup := false, keepAwake := false, quit := false, updateCount := 0 }

/-- An agent object that was never added to any scheduler. -/
def c4agent : UserAgent :=
  { uuid := K.i 7, className := "TestAgent", inbox := [], outbox := [],
    time := 0, isSetup := false, keepAwake := false, quit := false, updateCount := 0 }

/-- A well-formed `AgentMessage` for `c4agent` to send. -/
def c4msg : MMsg :=
  MMsg.plain { sender := some (K.i 7), receiver := some (K.i 9), topic := K.s "Hello", uuid := 60 }

/-- A fresh user agent to be added to a fresh scheduler. -/
def c5agent : UserAgent :=
  { uuid := K.i 7, className := "TestAgent", inbox := [], outbox := [],
    time := 0, isSetup := false, keepAwake := false, quit := false, updateCount := 0 }

/-- A fresh (never set up) scheduler with `c5agent` added. -/
def c5state : SState :=
  (scheduler_add (initialScheduler 0) (AddArg.user c5agent)).toOption.getD
    (initialScheduler 0)

/-- A scheduler whose mailing lists route topic `"t"` to the
unregistered uuid 7 and whose mail queue holds one such message. -/
def c6state : SState :=
  { initialScheduler 0 with
      mailingLists := [(K.s "t", [some (K.i 7)])],
      mailQueue := [MMsg.plain { sender := none, receiver := none, topic := K.s "t", uuid := 70 }] }

/-- A running (unpaused) simulation clock at time 5 with no alarms. -/
def c7clock : ClockState := { initialClock 0 with paused := false, t := 5 }

/-- Wake-up payload of the first-created alarm message. -/
def c7w1 : MMsg :=
  MMsg.plain { sender := some (K.i 3), receiver := some (K.i 3), topic := K.s "AgentMessage", uuid := 81 }

/-- Wake-up payload of the later-created alarm message. -/
def c7w2 : MMsg :=
  MMsg.plain { sender := some (K.i 3), receiver := some (K.i 3), topic := K.s "AgentMessage", uuid := 82 }

/-- The first-created alarm message (uuid 83), wakeup time 5. -/
def c7m1 : MMsg :=
  MMsg.alarmM { sender := some (K.i 3), receiver := some (K.s "Clock"), topic := K.s "AlarmMessage", uuid := 83 } 5 c7w1

/-- The later-created alarm message (uuid 84), same wakeup time 5. -/
def c7m2 : MMsg :=
  MMsg.alarmM { sender := some (K.i 3), receiver := some (K.s "Clock"), topic := K.s "AlarmMessage", uuid := 84 } 5 c7w2

/-- A running simulation clock with no alarms (for the C8 scenario). -/
def c8clock : ClockState := { initialClock 0 with paused := false }

/-- An alarm message (uuid 91) with wakeup time 5. -/
def c8m1 : MMsg :=
  MMsg.alarmM { sender := some (K.i 4), receiver := some (K.s "Clock"), topic := K.s "AlarmMessage", uuid := 91 } 5
    (MMsg.plain { sender := some (K.i 4), receiver := some (K.i 4), topic := K.s "AgentMessage", uuid := 93 })

/-- A second alarm message (uuid 92) with the same wakeup time 5. -/
def c8m2 : MMsg :=
  MMsg.alarmM { sender := some (K.i 4), receiver := some (K.s "Clock"), topic := K.s "AlarmMessage", uuid := 92 } 5
    (MMsg.plain { sender := some (K.i 4), receiver := some (K.i 4), topic := K.s "AgentMessage", uuid := 94 })

/-- A scheduler state in which the clock is registered (as after
`setup`): the key `-2` aliases the scheduler's own clock object. -/
def c10state : SState :=
  { initialScheduler 0 with agents := [(clockUuid, AgentRec.clockRef)] }

/-- Registry well-formedness: the scheduler's clock object is aliased
in `self.agents` only under the clock's uuid `-2` — which is how
`Scheduler.add` registers it (`self.agents[agent.uuid] = agent`). -/
def clockWF (st : SState) : Prop :=
  ∀ p ∈ st.agents, p.2 = AgentRec.clockRef → p.1 = clockUuid

instance (st : SState) : Decidable (clockWF st) := by
  unfold clockWF; infer_instance

/-- The state after delivering `c1msg` to the two recipients 7 and 8. -/
def c1result : SState :=
  (send_to_recipients c1state c1msg [some (K.i 7), some (K.i 8)]).toOption.getD c1state

/-- The state after delivering `c1msg` to the single recipient
`schedulerUuid` on a fresh scheduler. -/
def c1single : SState :=
  (send_to_recipients (initialScheduler 0) c1msg [some schedulerUuid]).toOption.getD
    (initialScheduler 0)

/-! ## Helper lemmas -/

theorem alistLookup_insert_self {β : Type} (l : List (K × β)) (k : K) (v : β) :
    alistLookup (alistInsert l k v) k = some v := by
  induction l with
  | nil => simp [alistInsert, alistLookup]
  | cons kv rest ih =>
      by_cases h : kv.1 = k
      · simp [alistInsert, h, alistLookup]
      · simpa [alistInsert, h, alistLookup] using ih

theorem alistLookup_insert_ne {β : Type} (l : List (K × β)) (k k' : K) (v : β)
    (h : k' ≠ k) : alistLookup (alistInsert l k v) k' = alistLookup l k' := by
  have hk'k : ¬ k = k' := fun hx => h hx.symm
  induction l with
  | nil => simp [alistInsert, alistLookup, hk'k]
  | cons kv rest ih =>
      by_cases hk : kv.1 = k
      · cases kv with
        | mk k0 v0 =>
            simp only at hk
            subst hk
            simp [alistInsert, alistLookup, hk'k]
      · cases kv with
        | mk k0 v0 =>
            simp only at hk
            by_cases hk' : k0 = k'
            · simp [alistInsert, hk, alistLookup, hk', h]
            · simpa [alistInsert, hk, alistLookup, hk'] using ih

theorem alistInsert_alistInsert {β : Type} (l : List (K × β)) (k : K) (v w : β) :
    alistInsert (alistInsert l k v) k w = alistInsert l k w := by
  induction l with
  | nil => simp [alistInsert]
  | cons kv rest ih =>
      by_cases hk : kv.1 = k
      · cases kv with
        | mk k0 v0 =>
            simp only at hk
            subst hk
            simp [alistInsert]
      · cases kv with
        | mk k0 v0 =>
            simp only at hk
            simp [alistInsert, hk, ih]

theorem mem_listUnion (a b : List (Option K)) (x : Option K) :
    x ∈ listUnion a b ↔ x ∈ a ∨ x ∈ b := by
  constructor
  · intro h
    rcases List.mem_append.mp h with h | h
    · exact Or.inl h
    · exact Or.inr (List.mem_of_mem_filter h)
  · intro h
    by_cases hx : x ∈ a
    · exact List.mem_append.mpr (Or.inl hx)
    · rcases h with h | h
      · exact absurd h hx
      · refine List.mem_append.mpr (Or.inr ?_)
        refine List.mem_filter.mpr ⟨h, ?_⟩
        simpa using hx

theorem subscribe_mem (ml : MailingLists) (x : Option K) (t : K) :
    ∃ mems, alistLookup (process_subscribe_message ml x t) t = some mems
      ∧ x ∈ mems := by
  unfold process_subscribe_message
  cases hml : alistLookup ml t with
  | none =>
      refine ⟨[x], ?_, by simp⟩
      simp [hml, alistLookup_insert_self, alistInsert_alistInsert]
  | some members =>
      by_cases hx : x ∈ members
      · exact ⟨members, by simp [hml, hx], hx⟩
      · refine ⟨members ++ [x], ?_, by simp⟩
        simp [hml, hx, alistLookup_insert_self]

/-- C9.  For every subscriber `x` and subscription topic `t`,
processing the subscription of `x` to `t` twice leaves the
mailing-list state identical to processing it once: subscribing is
idempotent (`Scheduler.process_subscribe_message`, src lines
1132-1155). -/
theorem subscribe_idempotent (ml : MailingLists) (x : Option K) (t : K) :
    process_subscribe_message (process_subscribe_message ml x t) x t =
      process_subscribe_message ml x t := by
  obtain ⟨mems, hl, hx⟩ := subscribe_mem ml x t
  generalize hr : process_subscribe_message ml x t = r at hl ⊢
  simp [process_subscribe_message, hl, hx]

/-- C2 counterexample.  With an empty subscription state and a message
with receiver 5, the spec's routing algorithm (the receiver unioned
with the eight sender/receiver/topic combination lookups) yields
`{5}`, but the recipient resolution of `process_mail_queue` yields the
empty set: the claimed equality fails.  A receiver reaches the
recipient set only via an explicit `mailing_lists` entry under its
uuid key. -/
theorem recipients_spec_counterexample :
    recipientsOf [] c2core.receiver c2core.topic = []
    ∧ spec_get_mail_recipients [] c2core = [some (K.i 5)]
    ∧ ([] : List (Option K)) ≠ [some (K.i 5)] := by
  refine ⟨rfl, rfl, by decide⟩

/-- C2 (amended).  Recipient resolution for a message processed from
the mail queue is a plain two-key lookup: `x` is a recipient iff `x`
is a subscriber stored in `mailing_lists` under the message's receiver
key, or one stored under its topic key.  No wildcard triple expansion
takes place, and the receiver itself is included only if subscribed
under one of those keys. -/
theorem recipients_two_key_lookup (ml : MailingLists) (recv : Option K)
    (t : K) (x : Option K) :
    x ∈ recipientsOf ml recv t ↔
      (∃ r mems, recv = some r ∧ alistLookup ml r = some mems ∧ x ∈ mems)
      ∨ (∃ mems, alistLookup ml t = some mems ∧ x ∈ mems) := by
  unfold recipientsOf
  rw [mem_listUnion]
  constructor
  · rintro (h | h)
    · left
      cases recv with
      | none => simp at h
      | some r =>
          change x ∈ (alistLookup ml r).getD [] at h
          cases hl : alistLookup ml r with
          | none => rw [hl] at h; simp at h
          | some mems =>
              rw [hl] at h
              exact ⟨r, mems, rfl, hl, by simpa using h⟩
    · right
      cases hl : alistLookup ml t with
      | none => rw [hl] at h; simp at h
      | some mems =>
          rw [hl] at h
          exact ⟨mems, rfl, by simpa using h⟩
  · rintro (⟨r, mems, hrecv, hl, hx⟩ | ⟨mems, hl, hx⟩)
    · subst hrecv
      exact Or.inl (by simp [hl, hx])
    · exact Or.inr (by simp [hl, hx])

/-- C3 counterexample.  Calling `remove` on a fresh scheduler with the
unregistered identifier 42 raises `ValueError("Agent not found: 42")`
instead of logging and returning normally as the claim states (the
state is unchanged, but an error is raised). -/
theorem remove_unknown_id_counterexample :
    removeAgent (initialScheduler 0) (RemoveArg.byId (K.i 42))
      = (some (RemErr.agentNotFound (K.i 42)), initialScheduler 0) := rfl

/-- C3 (amended).  `Scheduler.remove` with an identifier that is not a
registry key raises `ValueError` and leaves the state unchanged; the
idempotent log-and-return path applies only when an `Agent` *object*
whose uuid is unregistered is passed. -/
theorem remove_unknown_behaviour :
    (∀ (st : SState) (k : K), alistLookup st.agents k = none →
        removeAgent st (RemoveArg.byId k) = (some (RemErr.agentNotFound k), st))
    ∧ (∀ (st : SState) (a : UserAgent), alistLookup st.agents a.uuid = none →
        removeAgent st (RemoveArg.byAgent (AgentRef.userObj a)) = (none, st)) := by
  constructor
  · intro st k h
    simp [removeAgent, h]
  · intro st a h
    simp [removeAgent, h]

/-- Witness for the amended C3 at concrete inputs: identifier 42 and
agent object `c3agent`, both unknown to a fresh scheduler. -/
theorem remove_unknown_behaviour_witness :
    removeAgent (initialScheduler 0) (RemoveArg.byId (K.i 42))
      = (some (RemErr.agentNotFound (K.i 42)), initialScheduler 0)
    ∧ removeAgent (initialScheduler 0) (RemoveArg.byAgent (AgentRef.userObj c3agent))
      = (none, initialScheduler 0) :=
  ⟨remove_unknown_behaviour.1 (initialScheduler 0) (K.i 42) rfl,
   remove_unknown_behaviour.2 (initialScheduler 0) c3agent rfl⟩

/-- C4 (amended).  `Agent.send` never consults registration: for any
agent — registered or not — it appends an `AgentMessage` to the
agent's own outbox and raises nothing; the assertion fires only when
the argument is not an `AgentMessage` (leaving the agent unchanged).
No scheduler state is touched by `send`: messages reach the
scheduler's mail queue only later, via `send_and_receive`. -/
theorem agent_send_behaviour (a : UserAgent) (m : MMsg) :
    agentSend a (Sendable.agentMsg m) = (none, { a with outbox := a.outbox ++ [m] })
    ∧ (agentSend a Sendable.nonAgentMessage).1.isSome = true
    ∧ (agentSend a Sendable.nonAgentMessage).2 = a :=
  ⟨rfl, rfl, rfl⟩

/-- C4 counterexample.  `c4agent` is registered in no scheduler (the
fresh scheduler's registry has no entry for uuid 7), yet `send` of a
valid `AgentMessage` raises nothing (error component `none`) and
appends the message to the agent's own outbox; the scheduler's mail
queue stays empty.  The claim asserts an assertion-class error is
raised to the caller. -/
theorem send_unregistered_counterexample :
    alistLookup (initialScheduler 0).agents (K.i 7) = none
    ∧ (agentSend c4agent (Sendable.agentMsg c4msg)).1 = none
    ∧ (agentSend c4agent (Sendable.agentMsg c4msg)).2.outbox = [c4msg]
    ∧ (initialScheduler 0).mailQueue = [] :=
  ⟨rfl, rfl, rfl, rfl⟩

/-- C10.  Removing the scheduler's own clock is always refused with a
`ValueError` raised before any mutation: by object reference it hits
the explicit clock guard; by the clock's identifier it hits the guard
when the clock is registered, and the unknown-identifier `ValueError`
before `setup` has registered it.  The state comes back unchanged in
every case. -/
theorem remove_clock_rejected (st : SState) :
    removeAgent st (RemoveArg.byAgent AgentRef.theClock)
      = (some RemErr.clockNotPermitted, st)
    ∧ (alistLookup st.agents clockUuid = none
        ∨ alistLookup st.agents clockUuid = some AgentRec.clockRef →
        ∃ e, removeAgent st (RemoveArg.byId clockUuid) = (some e, st)) := by
  refine ⟨rfl, ?_⟩
  rintro (h | h)
  · exact ⟨RemErr.agentNotFound clockUuid, by simp [removeAgent, h]⟩
  · exact ⟨RemErr.clockNotPermitted, by simp [removeAgent, h]⟩

/-- Witness for C10 at a concrete input: a scheduler with its clock
registered under `-2` refuses both forms of removal. -/
theorem remove_clock_rejected_witness :
    removeAgent c10state (RemoveArg.byAgent AgentRef.theClock)
      = (some RemErr.clockNotPermitted, c10state)
    ∧ ∃ e, removeAgent c10state (RemoveArg.byId clockUuid) = (some e, c10state) :=
  ⟨(remove_clock_rejected c10state).1,
   (remove_clock_rejected c10state).2 (Or.inr (by decide))⟩

theorem alarmLE_time {a b : AlarmEntry} (h : alarmLE a b) : a.time ≤ b.time := by
  rcases h with h | ⟨h, _⟩
  · exact le_of_lt h
  · exact le_of_eq h

theorem cacLoop_spec (rn : ℚ) (ob : List MMsg) (l : List AlarmEntry) :
    cacLoop rn ob l =
      (ob ++ (l.takeWhile (fun e => decide (e.time ≤ rn))).map AlarmEntry.wakeMsg,
       l.dropWhile (fun e => decide (e.time ≤ rn))) := by
  induction l generalizing ob with
  | nil => simp [cacLoop]
  | cons e rest ih =>
      by_cases h : e.time ≤ rn
      · simp [cacLoop, h, ih]
      · simp [cacLoop, h]

/-- C8 counterexample.  Two alarms with the same wakeup time 5 leave
the clock's pending wakeup-time sequence as `[5, 5]`: sorted, but with
a duplicate wakeup-time entry, contradicting the claimed
deduplication.  The source keeps one `(time, uuid, message)` entry per
alarm and never merges equal times. -/
theorem clock_duplicate_wakeup_counterexample :
    ((set_alarm (set_alarm c8clock c8m1) c8m2).alarms.map AlarmEntry.time) = [5, 5]
    ∧ ¬ ([(5 : ℚ), 5].Nodup) := by
  exact ⟨by decide, by decide⟩

/-- C8 (amended).  After setting an alarm the clock's alarm list is
sorted ascending by the `(wakeup time, message uuid)` key — so the
wakeup-time sequence is weakly ascending and its first entry is the
earliest pending alarm — and releasing due alarms preserves the sorted
order.  Duplicate wakeup times, however, may occur (see the
counterexample); only the decorated entries are distinct. -/
theorem clock_alarm_invariants (c : ClockState) (core : MCore) (w : ℚ)
    (wm : MMsg) (rn : ℚ) :
    ((set_alarm c (MMsg.alarmM core w wm)).alarms.Sorted alarmLE)
    ∧ (((set_alarm c (MMsg.alarmM core w wm)).alarms.map AlarmEntry.time).Sorted (· ≤ ·))
    ∧ (∀ e ∈ (set_alarm c (MMsg.alarmM core w wm)).alarms,
        ∀ e0 ∈ (set_alarm c (MMsg.alarmM core w wm)).alarms.head?, e0.time ≤ e.time)
    ∧ (c.alarms.Sorted alarmLE → (check_alarm_clock rn c).alarms.Sorted alarmLE) := by
  have hsorted : (set_alarm c (MMsg.alarmM core w wm)).alarms.Sorted alarmLE := by
    simpa [set_alarm] using
      List.sorted_insertionSort alarmLE (c.alarms ++ [⟨w, core.uuid, wm⟩])
  refine ⟨hsorted, ?_, ?_, ?_⟩
  · exact hsorted.map AlarmEntry.time (fun a b h => alarmLE_time h)
  · intro e he e0 he0
    cases hl : (set_alarm c (MMsg.alarmM core w wm)).alarms with
    | nil => rw [hl] at he; simp at he
    | cons a tl =>
        rw [hl] at he0
        simp only [List.head?_cons, Option.mem_def, Option.some.injEq] at he0
        subst he0
        rw [hl] at he hsorted
        rcases List.mem_cons.mp he with h | h
        · exact le_of_eq (by rw [h])
        · exact alarmLE_time (List.rel_of_sorted_cons hsorted e h)
  · intro hs
    unfold check_alarm_clock
    by_cases he : c.alarms.isEmpty
    · simpa [he] using hs
    · simp only [he, Bool.false_eq_true, if_false]
      cases hsp : c.clockSpeed with
      | none =>
          simp only [clockTimeGet, hsp, cacLoop_spec]
          exact List.Pairwise.sublist (List.dropWhile_suffix _).sublist hs
      | some sp =>
          simp only [clockTimeGet, hsp, cacLoop_spec]
          exact List.Pairwise.sublist (List.dropWhile_suffix _).sublist hs

/-- C7 counterexample.  Alarm message `c7m2` (uuid 84) is inserted
into the clock before `c7m1` (uuid 83); both have wakeup time 5.  When
the clock releases them, the wake-up messages are sent as
`[c7w1, c7w2]` — ascending message-uuid order — not the insertion
order `[c7w2, c7w1]`: `alarms.sort()` orders equal times by the alarm
message's uuid (its creation order), not by insertion order. -/
theorem alarm_insertion_order_counterexample :
    (check_alarm_clock 0 (set_alarm (set_alarm c7clock c7m2) c7m1)).outbox = [c7w1, c7w2]
    ∧ c7w1 ≠ c7w2 := by
  exact ⟨by decide, by decide⟩

/-- C7 (amended).  Alarms with equal wakeup times fire in ascending
order of their alarm message's uuid — the order in which the
`AlarmMessage`s were created — independent of the order in which they
were inserted into the clock.  (Insertion order coincides with this
only when alarms reach the clock in creation order.) -/
theorem equal_time_alarms_fire_in_uuid_order
    (c : ClockState) (hsp : c.clockSpeed = none) (h0 : c.alarms = [])
    (t : ℚ) (d1 d2 : MCore) (w1 w2 : MMsg)
    (hu : d1.uuid < d2.uuid) (ht : t ≤ c.t)
    (ins : List MMsg)
    (hins : ins = [MMsg.alarmM d1 t w1, MMsg.alarmM d2 t w2]
          ∨ ins = [MMsg.alarmM d2 t w2, MMsg.alarmM d1 t w1]) :
    (check_alarm_clock 0 (ins.foldl set_alarm c)).outbox = c.outbox ++ [w1, w2] := by
  have hLE : alarmLE ⟨t, d1.uuid, w1⟩ ⟨t, d2.uuid, w2⟩ := Or.inr ⟨rfl, hu.le⟩
  have hNLE : ¬ alarmLE ⟨t, d2.uuid, w2⟩ ⟨t, d1.uuid, w1⟩ := by
    rintro (h | ⟨-, h⟩)
    · exact absurd h (lt_irrefl t)
    · exact absurd h (Nat.not_le.mpr hu)
  have key : ∀ cc : ClockState, cc.alarms = [⟨t, d1.uuid, w1⟩, ⟨t, d2.uuid, w2⟩] →
      cc.clockSpeed = none → cc.t = c.t → cc.outbox = c.outbox →
      (check_alarm_clock 0 cc).outbox = c.outbox ++ [w1, w2] := by
    intro cc hal hcs hct hob
    unfold check_alarm_clock
    rw [hal, hcs]
    simp only [clockTimeGet, hcs, cacLoop_spec, List.isEmpty_cons, if_false]
    simp [List.takeWhile, hal, hct, ht, hob]
  rcases hins with h | h <;> subst h
  · refine key _ ?_ hsp rfl rfl
    simp [set_alarm, h0, List.insertionSort, List.orderedInsert, hLE]
  · refine key _ ?_ hsp rfl rfl
    simp [set_alarm, h0, List.insertionSort, List.orderedInsert, hLE, hNLE]

/-- Witness for the amended C8 at a concrete clock and alarm. -/
theorem clock_alarm_invariants_witness :
    ((set_alarm c8clock c8m1).alarms.Sorted alarmLE)
    ∧ (((set_alarm c8clock c8m1).alarms.map AlarmEntry.time).Sorted (· ≤ ·))
    ∧ (check_alarm_clock 0 c8clock).alarms.Sorted alarmLE := by
  have h := clock_alarm_invariants c8clock
    ⟨some (K.i 4), some (K.s "Clock"), K.s "AlarmMessage", 91⟩ 5
    (MMsg.plain ⟨some (K.i 4), some (K.i 4), K.s "AgentMessage", 93⟩) 0
  exact ⟨h.1, h.2.1, h.2.2.2 (by decide)⟩

/-- Witness for the amended C7 at the concrete clock and alarms of the
counterexample scenario (insertion order opposite to creation order). -/
theorem equal_time_alarms_fire_in_uuid_order_witness :
    (check_alarm_clock 0 ([c7m2, c7m1].foldl set_alarm c7clock)).outbox
      = c7clock.outbox ++ [c7w1, c7w2] := by
  exact equal_time_alarms_fire_in_uuid_order c7clock (by decide) (by decide) 5
    ⟨some (K.i 3), some (K.s "Clock"), K.s "AlarmMessage", 83⟩
    ⟨some (K.i 3), some (K.s "Clock"), K.s "AlarmMessage", 84⟩
    c7w1 c7w2 (by decide) (by decide) [c7m2, c7m1] (Or.inr rfl)

theorem alistLookup_mem {β : Type} {l : List (K × β)} {k : K} {v : β}
    (h : alistLookup l k = some v) : (k, v) ∈ l := by
  induction l with
  | nil => simp [alistLookup] at h
  | cons kv rest ih =>
      cases kv with
      | mk k0 v0 =>
          by_cases hk : k0 = k
          · subst hk
            simp [alistLookup] at h
            subst h
            exact List.mem_cons_self _ _
          · simp only [alistLookup, if_neg hk] at h
            exact List.mem_cons_of_mem _ (ih h)

theorem alistInsert_mem {β : Type} {l : List (K × β)} {k : K} {v : β}
    {p : K × β} (h : p ∈ alistInsert l k v) : p ∈ l ∨ p = (k, v) := by
  induction l with
  | nil => simpa [alistInsert] using h
  | cons kv rest ih =>
      cases kv with
      | mk k0 v0 =>
          by_cases hk : k0 = k
          · subst hk
            simp only [alistInsert, if_pos rfl] at h
            rcases List.mem_cons.mp h with h | h
            · exact Or.inr h
            · exact Or.inl (List.mem_cons_of_mem _ h)
          · simp only [alistInsert, if_neg hk] at h
            rcases List.mem_cons.mp h with h | h
            · exact Or.inl (h ▸ List.mem_cons_self _ _)
            · rcases ih h with h' | h'
              · exact Or.inl (List.mem_cons_of_mem _ h')
              · exact Or.inr h'

/-! Evaluation lemmas for the four branches of `deliverTo`. -/

theorem deliverTo_eq_self (st : SState) (obj : Obj) :
    deliverTo st (some schedulerUuid) obj
      = Except.ok { st with inbox := st.inbox ++ [obj] } := by
  simp [deliverTo]

theorem deliverTo_eq_none (st : SState) (obj : Obj) :
    deliverTo st none obj = Except.error "KeyError: self.agents[uuid]" := by
  simp [deliverTo, agentsGet]

theorem deliverTo_eq_clock (st : SState) (obj : Obj) (k : K)
    (hk : k ≠ schedulerUuid) (hl : alistLookup st.agents k = some AgentRec.clockRef) :
    deliverTo st (some k) obj
      = Except.ok { st with
          needsUpdate := ndAdd st.needsUpdate k,
          clock := { st.clock with inbox := st.clock.inbox ++ [obj] } } := by
  simp [deliverTo, hk, agentsGet, hl]

theorem deliverTo_eq_user (st : SState) (obj : Obj) (k : K) (a : UserAgent)
    (hk : k ≠ schedulerUuid) (hl : alistLookup st.agents k = some (AgentRec.user a)) :
    deliverTo st (some k) obj
      = Except.ok { st with
          needsUpdate := ndAdd st.needsUpdate k,
          agents := alistInsert st.agents k
            (AgentRec.user { a with inbox := a.inbox ++ [obj] }) } := by
  simp [deliverTo, hk, agentsGet, hl]

theorem deliverTo_eq_missing (st : SState) (obj : Obj) (k : K)
    (hk : k ≠ schedulerUuid) (hl : alistLookup st.agents k = none) :
    deliverTo st (some k) obj = Except.error "KeyError: self.agents[uuid]" := by
  simp [deliverTo, hk, agentsGet, hl]

theorem deliverTo_ok_inbox {st st' : SState} {u : Option K} {obj : Obj}
    (h : deliverTo st u obj = Except.ok st') :
    inboxOfR st' u = (inboxOfR st u).map (fun l => l ++ [obj]) := by
  cases u with
  | none => rw [deliverTo_eq_none] at h; exact absurd h (by simp)
  | some k =>
      by_cases hk : k = schedulerUuid
      · subst hk
        rw [deliverTo_eq_self] at h
        injection h with h1
        subst h1
        simp [inboxOfR]
      · cases hl : alistLookup st.agents k with
        | none =>
            rw [deliverTo_eq_missing st obj k hk hl] at h
            exact absurd h (by simp)
        | some rec =>
            cases rec with
            | clockRef =>
                rw [deliverTo_eq_clock st obj k hk hl] at h
                injection h with h1
                subst h1
                simp [inboxOfR, hk, agentsGet, hl]
            | user a =>
                rw [deliverTo_eq_user st obj k a hk hl] at h
                injection h with h1
                subst h1
                simp [inboxOfR, hk, agentsGet, hl, alistLookup_insert_self]

theorem deliverTo_frame {st st' : SState} {u u' : Option K} {obj : Obj}
    (h : deliverTo st u obj = Except.ok st') (hne : u' ≠ u) (hwf : clockWF st) :
    inboxOfR st' u' = inboxOfR st u' := by
  cases u with
  | none => rw [deliverTo_eq_none] at h; exact absurd h (by simp)
  | some k =>
      by_cases hk : k = schedulerUuid
      · subst hk
        rw [deliverTo_eq_self] at h
        injection h with h1
        subst h1
        cases hl' : agentsGet st.agents u' with
        | none => simp [inboxOfR, hne, hl']
        | some rec => cases rec <;> simp [inboxOfR, hne, hl']
      · cases hl : alistLookup st.agents k with
        | none =>
            rw [deliverTo_eq_missing st obj k hk hl] at h
            exact absurd h (by simp)
        | some rec =>
            cases rec with
            | clockRef =>
                rw [deliverTo_eq_clock st obj k hk hl] at h
                injection h with h1
                subst h1
                have hkc : k = clockUuid := hwf _ (alistLookup_mem hl) rfl
                subst hkc
                by_cases hs : u' = some schedulerUuid
                · simp [inboxOfR, hs]
                · cases hl' : agentsGet st.agents u' with
                  | none => simp [inboxOfR, hs, hl']
                  | some rec' =>
                      cases rec' with
                      | user a => simp [inboxOfR, hs, hl']
                      | clockRef =>
                          exfalso
                          cases u' with
                          | none => simp [agentsGet] at hl'
                          | some k' =>
                              have hkc' : k' = clockUuid :=
                                hwf _ (alistLookup_mem (by simpa [agentsGet] using hl')) rfl
                              exact hne (by rw [hkc'])
            | user a =>
                rw [deliverTo_eq_user st obj k a hk hl] at h
                injection h with h1
                subst h1
                by_cases hs : u' = some schedulerUuid
                · simp [inboxOfR, hs]
                · cases u' with
                  | none => simp [inboxOfR, agentsGet]
                  | some k' =>
                      have hk' : k' ≠ k := fun hx => hne (by rw [hx])
                      simp [inboxOfR, hs, agentsGet,
                            alistLookup_insert_ne _ _ _ _ hk']

theorem deliverTo_missing {st : SState} {u : Option K} (obj : Obj)
    (hl : agentsGet st.agents u = none) (hu : u ≠ some schedulerUuid) :
    deliverTo st u obj = Except.error "KeyError: self.agents[uuid]" := by
  cases u with
  | none => exact deliverTo_eq_none st obj
  | some k =>
      have hk : k ≠ schedulerUuid := fun hx => hu (by rw [hx])
      exact deliverTo_eq_missing st obj k hk (by simpa [agentsGet] using hl)

theorem deliverTo_domain {st st' : SState} {u : Option K} {obj : Obj}
    (h : deliverTo st u obj = Except.ok st') (v : Option K) :
    (agentsGet st'.agents v).isNone = (agentsGet st.agents v).isNone := by
  cases u with
  | none => rw [deliverTo_eq_none] at h; exact absurd h (by simp)
  | some k =>
      by_cases hk : k = schedulerUuid
      · subst hk
        rw [deliverTo_eq_self] at h
        injection h with h1
        subst h1
        rfl
      · cases hl : alistLookup st.agents k with
        | none =>
            rw [deliverTo_eq_missing st obj k hk hl] at h
            exact absurd h (by simp)
        | some rec =>
            cases rec with
            | clockRef =>
                rw [deliverTo_eq_clock st obj k hk hl] at h
                injection h with h1
                subst h1
                rfl
            | user a =>
                rw [deliverTo_eq_user st obj k a hk hl] at h
                injection h with h1
                subst h1
                cases v with
                | none => rfl
                | some k' =>
                    by_cases hk' : k' = k
                    · subst hk'
                      simp [agentsGet, alistLookup_insert_self, hl]
                    · simp [agentsGet, alistLookup_insert_ne _ _ _ _ hk']

theorem deliverTo_clockWF {st st' : SState} {u : Option K} {obj : Obj}
    (h : deliverTo st u obj = Except.ok st') (hwf : clockWF st) : clockWF st' := by
  cases u with
  | none => rw [deliverTo_eq_none] at h; exact absurd h (by simp)
  | some k =>
      by_cases hk : k = schedulerUuid
      · subst hk
        rw [deliverTo_eq_self] at h
        injection h with h1
        subst h1
        exact hwf
      · cases hl : alistLookup st.agents k with
        | none =>
            rw [deliverTo_eq_missing st obj k hk hl] at h
            exact absurd h (by simp)
        | some rec =>
            cases rec with
            | clockRef =>
                rw [deliverTo_eq_clock st obj k hk hl] at h
                injection h with h1
                subst h1
                exact hwf
            | user a =>
                rw [deliverTo_eq_user st obj k a hk hl] at h
                injection h with h1
                subst h1
                intro p hp hcr
                rcases alistInsert_mem hp with h' | h'
                · exact hwf p h' hcr
                · rw [h'] at hcr
                  simp at hcr

theorem sendGo_not_mem {msg : MMsg} {n : Nat} :
    ∀ {recips : List (Option K)} {st st' : SState} {u : Option K},
      u ∉ recips → clockWF st →
      sendToRecipientsGo msg n st recips = Except.ok st' →
      inboxOfR st' u = inboxOfR st u := by
  intro recips
  induction recips with
  | nil =>
      intro st st' u _ _ h
      simp only [sendToRecipientsGo] at h
      injection h with h1
      rw [h1]
  | cons r rest ih =>
      intro st st' u hu hwf h
      simp only [sendToRecipientsGo] at h
      cases hd : deliverTo st r (if n = 1 then Obj.original msg else Obj.copied msg) with
      | error e => rw [hd] at h; exact absurd h (by simp)
      | ok st1 =>
          rw [hd] at h
          have hne : u ≠ r := fun hx => hu (hx ▸ List.mem_cons_self r rest)
          have h1 := deliverTo_frame hd hne hwf
          have h2 := ih (fun hx => hu (List.mem_cons_of_mem _ hx))
            (deliverTo_clockWF hd hwf) h
          exact h2.trans h1

theorem sendGo_mem {msg : MMsg} {n : Nat} (hn : n ≠ 1) :
    ∀ {recips : List (Option K)} {st st' : SState} {u : Option K},
      recips.Nodup → u ∈ recips → clockWF st →
      sendToRecipientsGo msg n st recips = Except.ok st' →
      inboxOfR st' u = (inboxOfR st u).map (fun l => l ++ [Obj.copied msg]) := by
  intro recips
  induction recips with
  | nil =>
      intro st st' u _ hu
      exact absurd hu (List.not_mem_nil u)
  | cons r rest ih =>
      intro st st' u hnd hu hwf h
      simp only [sendToRecipientsGo, if_neg hn] at h
      cases hd : deliverTo st r (Obj.copied msg) with
      | error e => rw [hd] at h; exact absurd h (by simp)
      | ok st1 =>
          rw [hd] at h
          rcases List.mem_cons.mp hu with rfl | hmem
          · have h1 := deliverTo_ok_inbox hd
            have h2 := sendGo_not_mem (List.nodup_cons.mp hnd).1
              (deliverTo_clockWF hd hwf) h
            exact h2.trans h1
          · have hne : u ≠ r := fun hx => (List.nodup_cons.mp hnd).1 (hx ▸ hmem)
            have h1 := deliverTo_frame hd hne hwf
            exact (ih (List.nodup_cons.mp hnd).2 hmem
              (deliverTo_clockWF hd hwf) h).trans (by rw [h1])

theorem sendGo_missing {msg : MMsg} {n : Nat} :
    ∀ {recips : List (Option K)} {st : SState} {u : Option K},
      u ∈ recips → agentsGet st.agents u = none → u ≠ some schedulerUuid →
      ∃ e, sendToRecipientsGo msg n st recips = Except.error e := by
  intro recips
  induction recips with
  | nil =>
      intro st u hu
      exact absurd hu (List.not_mem_nil u)
  | cons r rest ih =>
      intro st u hu hl hs
      simp only [sendToRecipientsGo]
      rcases List.mem_cons.mp hu with rfl | hmem
      · rw [deliverTo_missing _ hl hs]
        exact ⟨_, rfl⟩
      · cases hd : deliverTo st r (if n = 1 then Obj.original msg else Obj.copied msg) with
        | error e => exact ⟨e, rfl⟩
        | ok st1 =>
            have hl1 : agentsGet st1.agents u = none := by
              have hdom := deliverTo_domain hd u
              rw [hl] at hdom
              exact Option.isNone_iff_eq_none.mp (by simpa using hdom)
            exact ih hmem hl1 hs

/-- C1 counterexample.  Message `c1msg` resolves to the two registered
recipients 7 and 8; after delivery **both** inboxes hold a deep copy
produced by `msg.copy()` and **neither** holds the original instance:
the loop body executes `agent.inbox.append(msg.copy())` for every
recipient whenever `len(recipients) > 1`, so no recipient receives the
original, contradicting the claimed exactly-one-original rule. -/
theorem copy_fanout_counterexample :
    (send_to_recipients c1state c1msg [some (K.i 7), some (K.i 8)]).map
        (fun s => (inboxOfR s (some (K.i 7)), inboxOfR s (some (K.i 8))))
      = Except.ok (some [Obj.copied c1msg], some [Obj.copied c1msg])
    ∧ Obj.copied c1msg ≠ Obj.original c1msg := by
  exact ⟨rfl, by decide⟩

/-- C1 (amended).  For a single resolved recipient the delivered object
is the identical message instance that was sent; for `N > 1` resolved
recipients **every** recipient receives an independent deep copy
produced by the message's `copy` operation and no recipient receives
the original.  (`clockWF` states that the registry aliases the
scheduler's clock only under the clock's uuid, as `add` establishes.) -/
theorem send_to_recipients_copy_semantics (st : SState) (m : MMsg) :
    (∀ (u : Option K) (st' : SState),
        send_to_recipients st m [u] = Except.ok st' →
        inboxOfR st' u = (inboxOfR st u).map (fun l => l ++ [Obj.original m]))
    ∧ (∀ (recips : List (Option K)) (st' : SState),
        clockWF st → 1 < recips.length → recips.Nodup →
        send_to_recipients st m recips = Except.ok st' →
        ∀ u ∈ recips,
          inboxOfR st' u = (inboxOfR st u).map (fun l => l ++ [Obj.copied m])) := by
  constructor
  · intro u st' h
    simp only [send_to_recipients, List.length_singleton, sendToRecipientsGo,
               reduceIte] at h
    cases hd : deliverTo st u (Obj.original m) with
    | error e => rw [hd] at h; exact absurd h (by simp)
    | ok st1 =>
        rw [hd] at h
        have h1 : st1 = st' := by injection h
        subst h1
        exact deliverTo_ok_inbox hd
  · intro recips st' hwf hlen hnd h u hu
    have hn : recips.length ≠ 1 := by omega
    exact sendGo_mem hn hnd hu hwf h

/-- Witness for the amended C1: a single-recipient delivery to the
scheduler appends the original instance; the two-recipient delivery of
the counterexample scenario appends a deep copy to recipient 7's
inbox. -/
theorem send_to_recipients_copy_semantics_witness :
    inboxOfR c1single (some schedulerUuid)
      = (inboxOfR (initialScheduler 0) (some schedulerUuid)).map
          (fun l => l ++ [Obj.original c1msg])
    ∧ inboxOfR c1result (some (K.i 7))
      = (inboxOfR c1state (some (K.i 7))).map
          (fun l => l ++ [Obj.copied c1msg]) := by
  constructor
  · exact (send_to_recipients_copy_semantics (initialScheduler 0) c1msg).1
      (some schedulerUuid) c1single rfl
  · exact (send_to_recipients_copy_semantics c1state c1msg).2
      [some (K.i 7), some (K.i 8)] c1result (by decide) (by decide) (by decide)
      rfl (some (K.i 7)) (by decide)

/-- C6 counterexample.  In `c6state` the mail-queue message resolves
(via its topic subscription) to the recipient uuid 7, which is not a
registered agent.  Processing the mail queue raises
`KeyError` (`self.agents[uuid]`, line 1099) instead of silently
skipping the missing recipient. -/
theorem missing_recipient_counterexample :
    recipientsOf c6state.mailingLists none (K.s "t") = [some (K.i 7)]
    ∧ agentsGet c6state.agents (some (K.i 7)) = none
    ∧ process_mail_queue c6state = Except.error "KeyError: self.agents[uuid]" := by
  exact ⟨by decide, by decide, rfl⟩

/-- C6 (amended).  A mail-queue message whose recipient set resolves
*empty* — the situation of an alarm firing for a removed agent, which
was unsubscribed from every mailing list at removal — is dropped with
a log line and without any exception or delivery.  But when a
*resolved* recipient uuid is not in the agent registry, delivery
raises a `KeyError` rather than skipping it. -/
theorem missing_recipient_behaviour :
    (∀ (st : SState) (m : MMsg),
        recipientsOf st.mailingLists m.core.receiver m.core.topic = [] →
        process_mail_queue { st with mailQueue := [m] }
          = Except.ok { st with
              mailQueue := [],
              messageCount := dequeAppend 3 st.messageCount (st.hasKeepAwake.length + 1) })
    ∧ (∀ (st : SState) (m : MMsg) (recips : List (Option K)) (u : Option K),
        u ∈ recips → agentsGet st.agents u = none → u ≠ some schedulerUuid →
        ∃ e, send_to_recipients st m recips = Except.error e) := by
  constructor
  · intro st m h
    simp [process_mail_queue, pmqGo, h]
  · intro st m recips u hu hl hs
    exact sendGo_missing hu hl hs

/-- Witness for the amended C6: a message with no subscribers on a
fresh scheduler is dropped without error, and the delivery of the
counterexample scenario to the unregistered uuid 7 errors. -/
theorem missing_recipient_behaviour_witness :
    process_mail_queue { initialScheduler 0 with mailQueue := [c4msg] }
      = Except.ok { initialScheduler 0 with
          mailQueue := [],
          messageCount := dequeAppend 3 (initialScheduler 0).messageCount ((initialScheduler 0).hasKeepAwake.length + 1) }
    ∧ ∃ e, send_to_recipients c6state c4msg [some (K.i 7)] = Except.error e := by
  constructor
  · exact missing_recipient_behaviour.1 (initialScheduler 0) c4msg (by decide)
  · exact missing_recipient_behaviour.2 c6state c4msg [some (K.i 7)]
      (some (K.i 7)) (by decide) (by decide) (by decide)

theorem runPre_isSetup (i : Option Int) (p : Option Bool) (st : SState) :
    (runPre i p st).isSetup = st.isSetup := by
  unfold runPre addUpdatedAgents
  cases p <;> dsimp only [] <;> split <;> rfl

theorem runPre_iterations (i : Option Int) (p : Option Bool) (st : SState) :
    (runPre i p st).iterationsToHalt = i.map (fun x => |x|) := by
  unfold runPre addUpdatedAgents
  cases p <;> dsimp only [] <;> split <;> rfl

theorem loop_zero (realNow : ℚ) (fuel : Nat) (st : SState)
    (hi : st.iterationsToHalt = some 0) :
    ∃ st', scheduler_update_loop realNow fuel st = Except.ok (st', []) := by
  cases fuel with
  | zero => exact ⟨st, rfl⟩
  | succ n =>
      by_cases hq : st.quit
      · exact ⟨st, by simp [scheduler_update_loop, hq]⟩
      · have hp : (update_iterations_to_halt st).pause = true := by
          simp [update_iterations_to_halt, hi]
        exact ⟨update_iterations_to_halt st,
          by simp [scheduler_update_loop, hq, hp]⟩

/-- C5 (amended).  On a scheduler that is already set up,
`run(iterations=0)` returns before any registered agent's `update` is
invoked (empty update trace): the first pass of the main loop burns
the zero iteration budget, sets `pause` and returns ahead of
`update_all_agents`.  On the *first* `run`, however, `setup()` runs
before the loop and updates every registered agent once, so the claim
fails there (see the counterexample). -/
theorem run_zero_iterations_no_update (realNow : ℚ) (fuel : Nat)
    (pii : Option Bool) (st : SState) (hsetup : st.isSetup = true) :
    ∃ st', scheduler_run realNow fuel (some 0) pii st
      = Except.ok (st', []) := by
  have h1 : (runPre (some 0) pii st).isSetup = true := by
    rw [runPre_isSetup]; exact hsetup
  have h2 : (runPre (some 0) pii st).iterationsToHalt = some 0 := by
    rw [runPre_iterations]; simp
  unfold scheduler_run
  dsimp only
  rw [if_pos h1]
  dsimp only
  by_cases hq : (runPre (some 0) pii st).quit
  · rw [if_pos hq]
    exact ⟨_, rfl⟩
  · obtain ⟨sl, hl⟩ := loop_zero realNow fuel _ h2
    rw [if_neg hq, hl]
    exact ⟨_, rfl⟩

/-- Witness for the amended C5: a set-up scheduler, `iterations=0`. -/
theorem run_zero_iterations_no_update_witness :
    ∃ st', scheduler_run 0 1 (some 0) none
        { initialScheduler 0 with isSetup := true } = Except.ok (st', []) :=
  run_zero_iterations_no_update 0 1 none
    { initialScheduler 0 with isSetup := true } rfl

/-- C5 counterexample.  On a fresh scheduler with one user agent
added, `run(iterations=0)` does **not** return before agent updates:
the first `run` performs `setup()`, whose `update_all_agents` invokes
`update` on the clock (twice — once explicitly, once via
`needs_update`) and on the registered user agent 7, before the main
loop pauses.  The update trace is `[-2, 7, -2]`, not `[]`. -/
theorem run_zero_iterations_counterexample :
    (scheduler_run 0 1 (some 0) none c5state).map Prod.snd
      = Except.ok [clockUuid, K.i 7, clockUuid]
    ∧ ([clockUuid, K.i 7, clockUuid] : List K) ≠ [] := by
  exact ⟨rfl, by decide⟩

end Maslite
